import Mathlib

/-!
Verification of the functional-data module (scodata/funcdata.py).

The development shallowly embeds the module: path manipulation follows
posixpath (normpath, basename, join), timestamps are records of numeric
fields with the strftime/strptime format "%Y-%m-%dT%H:%M:%S.%f", the
filesystem and the document store are explicit state values threaded
through create_object, and errors are surfaced through Except carrying
the state at the moment of failure (Python exceptions do not roll back
side effects already performed).
-/

namespace FuncData

/-! ## Path helpers (posixpath semantics) -/

/-- Python str.endswith: the argument is a suffix of the string. Expressed
by dropping all but the trailing segment of matching length. -/
def strEndsWith (s suf : String) : Bool :=
  s.data.drop (s.data.length - suf.data.length) == suf.data

/-- Python str.startswith: the argument is a prefix of the string. -/
def strStartsWith (s pre : String) : Bool :=
  s.data.take pre.data.length == pre.data

/-- posixpath.join for two components: an absolute second component wins;
otherwise a separator is inserted unless the first component is empty or
already ends with one. -/
def joinPath (a b : String) : String :=
  if strStartsWith b "/" then b
  else if a = "" ∨ strEndsWith a "/" = true then a ++ b
  else a ++ "/" ++ b

/-- Python str.split on the path separator: returns the (possibly empty)
chunks between occurrences of the slash character. -/
def splitSep : List Char → List (List Char)
  | [] => [[]]
  | c :: cs =>
    match splitSep cs with
    | [] => [[]]
    | r :: rs => if c = '/' then [] :: r :: rs else (c :: r) :: rs

/-- Python sep.join over component lists. -/
def joinComps : List (List Char) → List Char
  | [] => []
  | [c] => c
  | c :: cs => c ++ '/' :: joinComps cs

/-- posixpath.normpath treats one or two leading slashes specially; three
or more collapse to one. -/
def initialSlashCount : List Char → Nat
  | '/' :: '/' :: '/' :: _ => 1
  | '/' :: '/' :: _ => 2
  | '/' :: _ => 1
  | _ => 0

/-- One step of the component loop of posixpath.normpath: empty and dot
components are dropped, dotdot pops the previous component unless the
path is relative and empty so far, or the previous component is itself
a dotdot. -/
def normStep (k : Nat) (acc : List (List Char)) (comp : List Char) : List (List Char) :=
  if comp = [] ∨ comp = ['.'] then acc
  else if comp ≠ ['.', '.'] ∨ (k = 0 ∧ acc = []) ∨ (acc ≠ [] ∧ acc.getLast? = some ['.', '.']) then
    acc ++ [comp]
  else if acc ≠ [] then acc.dropLast
  else acc

/-- posixpath.normpath: collapse redundant separators and dot components. -/
def normpath (path : String) : String :=
  if path.data = [] then "."
  else
    let k := initialSlashCount path.data
    let newComps := (splitSep path.data).foldl (normStep k) []
    let joined := List.replicate k '/' ++ joinComps newComps
    if joined = [] then "." else String.mk joined

/-- posixpath.basename on character lists: everything after the last
slash (the whole list when no slash occurs). -/
def basenameChars (cs : List Char) : List Char :=
  (cs.reverse.takeWhile (fun c => c != '/')).reverse

/-- posixpath.basename. -/
def basename (p : String) : String :=
  String.mk (basenameChars p.data)

/-- Constant DATA_DIRECTORY from the module. -/
def DATA_DIRECTORY : String := "data"

/-! ## Timestamps -/

/-- A datetime value, restricted to the fields that the format string
"%Y-%m-%dT%H:%M:%S.%f" serialises. -/
structure Timestamp where
  year : Nat
  month : Nat
  day : Nat
  hour : Nat
  minute : Nat
  second : Nat
  microsecond : Nat
deriving DecidableEq

/-- Two-digit zero-padded decimal rendering (for values below 100). -/
def pad2 (n : Nat) : List Char :=
  [Nat.digitChar (n / 10 % 10), Nat.digitChar (n % 10)]

/-- Four-digit zero-padded decimal rendering (for values below 10000). -/
def pad4 (n : Nat) : List Char :=
  [Nat.digitChar (n / 1000 % 10), Nat.digitChar (n / 100 % 10),
   Nat.digitChar (n / 10 % 10), Nat.digitChar (n % 10)]

/-- Six-digit zero-padded decimal rendering (for values below 1000000). -/
def pad6 (n : Nat) : List Char :=
  [Nat.digitChar (n / 100000 % 10), Nat.digitChar (n / 10000 % 10),
   Nat.digitChar (n / 1000 % 10), Nat.digitChar (n / 100 % 10),
   Nat.digitChar (n / 10 % 10), Nat.digitChar (n % 10)]

/-- Character list of the serialised timestamp, format
"%Y-%m-%dT%H:%M:%S.%f" with zero padding and six fractional digits. -/
def formatChars (t : Timestamp) : List Char :=
  pad4 t.year ++ '-' :: (pad2 t.month ++ '-' :: (pad2 t.day ++ 'T' ::
    (pad2 t.hour ++ ':' :: (pad2 t.minute ++ ':' ::
      (pad2 t.second ++ '.' :: pad6 t.microsecond)))))

/-- Serialised timestamp string, as stored in the document. -/
def formatTimestamp (t : Timestamp) : String :=
  String.mk (formatChars t)

/-- Numeric value of a decimal digit character. -/
def dval (c : Char) : Nat := c.toNat - 48

/-- strptime field %Y: exactly four decimal digits. -/
def parse4 : List Char → Option (Nat × List Char)
  | c1 :: c2 :: c3 :: c4 :: rest =>
    if c1.isDigit ∧ c2.isDigit ∧ c3.isDigit ∧ c4.isDigit then
      some (dval c1 * 1000 + dval c2 * 100 + dval c3 * 10 + dval c4, rest)
    else none
  | _ => none

/-- strptime two-or-one digit numeric field: the two-digit reading is
taken when both characters are digits and the value lies in the
two-digit range of the field pattern; otherwise a single digit in the
one-digit range is consumed. When two digits are present but the value
is out of range the match fails, exactly as the regex alternation does
(the one-digit fallback would leave a digit before the following
literal separator and fail anyway). -/
def parse2or1 (lo2 hi2 lo1 hi1 : Nat) : List Char → Option (Nat × List Char)
  | c1 :: c2 :: rest =>
    if c1.isDigit then
      if c2.isDigit then
        if lo2 ≤ dval c1 * 10 + dval c2 ∧ dval c1 * 10 + dval c2 ≤ hi2 then
          some (dval c1 * 10 + dval c2, rest)
        else none
      else
        if lo1 ≤ dval c1 ∧ dval c1 ≤ hi1 then some (dval c1, c2 :: rest) else none
    else none
  | [c1] =>
    if c1.isDigit then
      if lo1 ≤ dval c1 ∧ dval c1 ≤ hi1 then some (dval c1, []) else none
    else none
  | [] => none

/-- A literal character of the format string. CPython compiles the
format regex with the IGNORECASE flag, so an alphabetic literal such as
the T separator also matches its other-case form; the ASCII case
mapping is exact for the literals of this format (T, the dash, the
colon and the dot). -/
def lit (c : Char) : List Char → Option (List Char)
  | c1 :: rest => if c1.toLower = c.toLower then some rest else none
  | [] => none

/-- strptime field %f at the end of the format: one to six digits, right
padded with zeros to microseconds; any leftover input fails the match. -/
def parseFrac (cs : List Char) : Option Nat :=
  if cs ≠ [] ∧ cs.length ≤ 6 ∧ cs.all Char.isDigit then
    some ((cs.foldl (fun a c => a * 10 + dval c) 0) * 10 ^ (6 - cs.length))
  else none

/-- Gregorian leap-year rule, as in the datetime module. -/
def isLeap (y : Nat) : Bool :=
  y % 4 = 0 && (y % 100 != 0 || y % 400 = 0)

/-- Number of days of a month, as validated by datetime construction. -/
def daysInMonth (y m : Nat) : Nat :=
  if m = 2 then (if isLeap y then 29 else 28)
  else if m = 4 ∨ m = 6 ∨ m = 9 ∨ m = 11 then 30
  else 31

/-- datetime.strptime with format "%Y-%m-%dT%H:%M:%S.%f": the regex
match of each field followed by the range validation performed by the
datetime constructor (year at least 1, day within the month, second at
most 59). The regex is compiled with the IGNORECASE flag, so the
literal T also matches a lowercase t (see lit). Digits are modelled
over ASCII: on ASCII input this parser agrees with the program exactly,
and every string it accepts is accepted by the program with the same
field values; the character class of a digit in the real regex also
admits other Unicode decimal digits, which the embedding does not
cover, so theorems asserting rejection are stated for ASCII strings. -/
def parseTimestamp (s : String) : Option Timestamp := do
  let (y, cs) ← parse4 s.data
  let cs ← lit '-' cs
  let (mo, cs) ← parse2or1 1 12 1 9 cs
  let cs ← lit '-' cs
  let (d, cs) ← parse2or1 1 31 1 9 cs
  let cs ← lit 'T' cs
  let (h, cs) ← parse2or1 0 23 0 9 cs
  let cs ← lit ':' cs
  let (mi, cs) ← parse2or1 0 59 0 9 cs
  let cs ← lit ':' cs
  let (sec, cs) ← parse2or1 0 61 0 9 cs
  let cs ← lit '.' cs
  let us ← parseFrac cs
  if 1 ≤ y ∧ d ≤ daysInMonth y mo ∧ sec ≤ 59 then
    some ⟨y, mo, d, h, mi, sec, us⟩
  else none

/-- The range of field values that datetime.utcnow can produce; every
timestamp attached to a created object satisfies this. -/
def Timestamp.Valid (t : Timestamp) : Prop :=
  1 ≤ t.year ∧ t.year ≤ 9999 ∧ 1 ≤ t.month ∧ t.month ≤ 12 ∧
  1 ≤ t.day ∧ t.day ≤ daysInMonth t.year t.month ∧
  t.hour ≤ 23 ∧ t.minute ≤ 59 ∧ t.second ≤ 59 ∧ t.microsecond ≤ 999999

/-! ## Data model

The property keys come from the datastore base module, which only this
module's import declares. Modelled from the spec: the keys name, filename,
filesize, mimetype, a data-file reference and an optional read-only flag
are distinct constants of the store. -/

/-- Property keys (PROPERTY_NAME, PROPERTY_FILENAME, PROPERTY_FILESIZE,
PROPERTY_MIMETYPE, PROPERTY_FUNCDATAFILE, PROPERTY_READONLY). -/
inductive PropKey where
  | name
  | filename
  | filesize
  | mimetype
  | funcdatafile
  | readonly
deriving DecidableEq

/-- Property values: strings, byte counts and boolean flags. -/
inductive PropVal where
  | str (s : String)
  | nat (n : Nat)
  | bool (b : Bool)
deriving DecidableEq

/-- Python dictionary lookup over the association list of properties. -/
def lookupProp (k : PropKey) : List (PropKey × PropVal) → Option PropVal
  | [] => none
  | (k', v) :: rest => if k' = k then some v else lookupProp k rest

/-- FunctionalDataHandle: identifier, creation timestamp, properties,
directory and active flag (the fields of the datastore base handle)
plus the derived paths computed by the constructor. -/
structure FunctionalDataHandle where
  identifier : String
  timestamp : Timestamp
  properties : List (PropKey × PropVal)
  directory : String
  is_active : Bool
  data_directory : String
  data_file : String
deriving DecidableEq

/-- FunctionalDataHandle.__init__: stores the given fields and derives
data_directory and data_file; accessing the filename property raises a
KeyError when it is absent (or the value is not a path string), which
the embedding renders as none. -/
def FunctionalDataHandle.init (identifier : String) (properties : List (PropKey × PropVal))
    (directory : String) (timestamp : Timestamp) (is_active : Bool) :
    Option FunctionalDataHandle :=
  match lookupProp PropKey.filename properties with
  | some (PropVal.str fname) =>
    some { identifier := identifier, timestamp := timestamp, properties := properties,
           directory := directory, is_active := is_active,
           data_directory := joinPath directory DATA_DIRECTORY,
           data_file := joinPath (joinPath directory DATA_DIRECTORY) fname }
  | _ => none

/-- FMRIDataHandle: a functional data handle tagged with the experiment
it is associated with. -/
structure FMRIDataHandle where
  base : FunctionalDataHandle
  experiment_id : String
deriving DecidableEq

/-- FMRIDataHandle.__init__: re-runs the functional data constructor on
the fields of the given handle and stores the experiment identifier,
performing no validation of it. -/
def FMRIDataHandle.init (func_data : FunctionalDataHandle) (experiment_id : String) :
    Option FMRIDataHandle :=
  (FunctionalDataHandle.init func_data.identifier func_data.properties func_data.directory
      func_data.timestamp func_data.is_active).map
    (fun b => { base := b, experiment_id := experiment_id })

/-! ## Documents and the store -/

/-- A stored document. Each field is optional so that documents with
absent fields are expressible; field docId plays the role of the _id
key, modelled as a string (str applied to it is then the identity). -/
structure Document where
  docId : Option String
  docActive : Option Bool
  docTimestamp : Option String
  docProperties : Option (List (PropKey × PropVal))
deriving DecidableEq

/-- Modelled from the spec: the document representation produced by the
datastore base when persisting a handle, with fields _id (identifier),
active, timestamp (fixed serialisation format) and properties. -/
def to_dict (h : FunctionalDataHandle) : Document :=
  { docId := some h.identifier, docActive := some h.is_active,
    docTimestamp := some (formatTimestamp h.timestamp),
    docProperties := some h.properties }

/-- Errors surfaced by create_object: the unsupported-file-type
ValueError with the offending base name, FileExistsError from os.mkdir,
other propagated I/O errors, KeyError from the handle constructor, and a
duplicate-key failure of the store insert. -/
inductive CreateError where
  | unsupportedFileType (name : String)
  | fileExists (path : String)
  | ioError
  | keyError
  | duplicateKey
deriving DecidableEq

/-- Errors surfaced by from_dict: a KeyError for an absent document
field, the ValueError of strptime on a malformed timestamp string, and
the KeyError of the handle constructor. -/
inductive FromDictError where
  | missingField
  | badTimestamp
  | keyError
deriving DecidableEq

/-- Modelled from the spec: the insert operation of the datastore base,
failing when a document with the same identifier is already present. -/
def insert_object (store : List Document) (obj : FunctionalDataHandle) :
    Except CreateError (List Document) :=
  if ∃ d ∈ store, d.docId = some obj.identifier then Except.error CreateError.duplicateKey
  else Except.ok (store ++ [to_dict obj])

/-! ## Filesystem model -/

/-- Lookup of a file entry by exact path. -/
def lookupFile : List (String × Nat) → String → Option Nat
  | [], _ => none
  | (p, sz) :: rest, q => if p = q then some sz else lookupFile rest q

/-- The local filesystem as the manager observes it: a set of existing
directories and a map from file paths to file sizes. Paths are opaque
strings; aliasing between spellings of one path is not modelled. -/
structure FileSystem where
  dirs : List String
  files : List (String × Nat)
deriving DecidableEq

/-- os.access with mode F_OK: the path exists as a directory or a file. -/
def FileSystem.pathExists (fs : FileSystem) (p : String) : Bool :=
  fs.dirs.contains p || (lookupFile fs.files p).isSome

/-- os.path.getsize via the file map. -/
def getFileSize (fs : FileSystem) (path : String) : Option Nat :=
  lookupFile fs.files path

/-! ## The manager -/

/-- The suffix dispatch of create_object (lines 199 to 206 of the
source, written as a helper): the three gzip suffixes first, then .nii,
then .mgh, otherwise no MIME type is assigned and the unsupported-file-
type error is raised. -/
def getMimeType (n : String) : Option String :=
  if strEndsWith n ".nii.gz" || strEndsWith n ".mgz" || strEndsWith n ".mgh.gz" then
    some "application/x-gzip"
  else if strEndsWith n ".nii" then some "application/NIfTI-1"
  else if strEndsWith n ".mgh" then some "application/MGH"
  else none

/-- The property dictionary built by create_object: name, filename and
the data-file reference all equal the base name, the file size of the
copied file, the MIME type, and the read-only flag when requested. -/
def mkProps (prop_name : String) (filesize : Nat) (prop_mime : String) (read_only : Bool) :
    List (PropKey × PropVal) :=
  [(PropKey.name, PropVal.str prop_name),
   (PropKey.filename, PropVal.str prop_name),
   (PropKey.filesize, PropVal.nat filesize),
   (PropKey.mimetype, PropVal.str prop_mime),
   (PropKey.funcdatafile, PropVal.str prop_name)]
  ++ (if read_only then [(PropKey.readonly, PropVal.bool true)] else [])

/-- The makedirs step of create_object: the object directory is created
(with its parents) only when the path does not already exist. -/
def ensureObjectDir (fs : FileSystem) (object_dir : String) : FileSystem :=
  if fs.pathExists object_dir then fs else { fs with dirs := object_dir :: fs.dirs }

/-- DefaultFunctionalDataManager.create_object. The manager state is the
base directory; the ambient state (filesystem and store) is passed and
returned explicitly, also on errors, so that the side effects performed
before a failure are visible. The generated uuid identifier and the
current time are injected as arguments. Steps, following the source:
derive the base name of the normalised path, dispatch on the suffix,
create the object directory when the path does not yet exist, create
the data subdirectory with os.mkdir (failing when it exists or the
object directory is not a directory), copy the source file (failing when
it is absent), build the properties, construct the handle and insert its
document into the store. -/
def create_object (baseDir : String) (fs : FileSystem) (store : List Document)
    (filename : String) (identifier : String) (now : Timestamp) (read_only : Bool) :
    Except (CreateError × FileSystem × List Document)
      (FunctionalDataHandle × FileSystem × List Document) :=
  let prop_name := basename (normpath filename)
  match getMimeType prop_name with
  | none => Except.error (CreateError.unsupportedFileType prop_name, fs, store)
  | some prop_mime =>
    let object_dir := joinPath baseDir identifier
    let fs1 := ensureObjectDir fs object_dir
    let data_dir := joinPath object_dir DATA_DIRECTORY
    if fs1.pathExists data_dir then Except.error (CreateError.fileExists data_dir, fs1, store)
    else if fs1.dirs.contains object_dir then
      let fs2 := { fs1 with dirs := data_dir :: fs1.dirs }
      let uploaded_file := joinPath data_dir prop_name
      match getFileSize fs2 filename with
      | none => Except.error (CreateError.ioError, fs2, store)
      | some sz =>
        let fs3 := { fs2 with files := (uploaded_file, sz) :: fs2.files }
        match FunctionalDataHandle.init identifier (mkProps prop_name sz prop_mime read_only)
            object_dir now true with
        | none => Except.error (CreateError.keyError, fs3, store)
        | some obj =>
          match insert_object store obj with
          | Except.error e => Except.error (e, fs3, store)
          | Except.ok store2 => Except.ok (obj, fs3, store2)
    else Except.error (CreateError.ioError, fs1, store)

/-- DefaultFunctionalDataManager.from_dict: read _id (a string, so the
str conversion is the identity), the active flag, derive the directory
from the base directory and the identifier, parse the timestamp string,
take the properties verbatim and run the handle constructor. An absent
field raises a KeyError, a malformed timestamp the ValueError of
strptime. -/
def from_dict (baseDir : String) (document : Document) :
    Except FromDictError FunctionalDataHandle :=
  match document.docId with
  | none => Except.error FromDictError.missingField
  | some identifier =>
    match document.docActive with
    | none => Except.error FromDictError.missingField
    | some active =>
      match document.docTimestamp with
      | none => Except.error FromDictError.missingField
      | some ts =>
        match parseTimestamp ts with
        | none => Except.error FromDictError.badTimestamp
        | some timestamp =>
          match document.docProperties with
          | none => Except.error FromDictError.missingField
          | some properties =>
            match FunctionalDataHandle.init identifier properties
                (joinPath baseDir identifier) timestamp active with
            | some h => Except.ok h
            | none => Except.error FromDictError.keyError

/-- Discriminator for successful results. -/
def exceptIsOk {ε α : Type} : Except ε α → Bool
  | Except.ok _ => true
  | Except.error _ => false

/-! ## Lemmas about digits and the timestamp round trip -/

theorem digitChar_spec : ∀ d < 10, (Nat.digitChar d).isDigit = true ∧ dval (Nat.digitChar d) = d := by
  decide

theorem parse4_pad4 (y : Nat) (hy : y ≤ 9999) (rest : List Char) :
    parse4 (pad4 y ++ rest) = some (y, rest) := by
  obtain ⟨d1, v1⟩ := digitChar_spec (y / 1000 % 10) (Nat.mod_lt _ (by omega))
  obtain ⟨d2, v2⟩ := digitChar_spec (y / 100 % 10) (Nat.mod_lt _ (by omega))
  obtain ⟨d3, v3⟩ := digitChar_spec (y / 10 % 10) (Nat.mod_lt _ (by omega))
  obtain ⟨d4, v4⟩ := digitChar_spec (y % 10) (Nat.mod_lt _ (by omega))
  simp [pad4, parse4, d1, d2, d3, d4, v1, v2, v3, v4]
  omega

theorem parse2or1_pad2 (lo2 hi2 lo1 hi1 m : Nat) (hm : m ≤ 99) (hlo : lo2 ≤ m) (hhi : m ≤ hi2)
    (rest : List Char) :
    parse2or1 lo2 hi2 lo1 hi1 (pad2 m ++ rest) = some (m, rest) := by
  obtain ⟨d1, v1⟩ := digitChar_spec (m / 10 % 10) (Nat.mod_lt _ (by omega))
  obtain ⟨d2, v2⟩ := digitChar_spec (m % 10) (Nat.mod_lt _ (by omega))
  simp [pad2, parse2or1, d1, d2, v1, v2]
  omega

theorem parseFrac_pad6 (u : Nat) (hu : u ≤ 999999) :
    parseFrac (pad6 u) = some u := by
  obtain ⟨d1, v1⟩ := digitChar_spec (u / 100000 % 10) (Nat.mod_lt _ (by omega))
  obtain ⟨d2, v2⟩ := digitChar_spec (u / 10000 % 10) (Nat.mod_lt _ (by omega))
  obtain ⟨d3, v3⟩ := digitChar_spec (u / 1000 % 10) (Nat.mod_lt _ (by omega))
  obtain ⟨d4, v4⟩ := digitChar_spec (u / 100 % 10) (Nat.mod_lt _ (by omega))
  obtain ⟨d5, v5⟩ := digitChar_spec (u / 10 % 10) (Nat.mod_lt _ (by omega))
  obtain ⟨d6, v6⟩ := digitChar_spec (u % 10) (Nat.mod_lt _ (by omega))
  simp [pad6, parseFrac, d1, d2, d3, d4, d5, d6, v1, v2, v3, v4, v5, v6]
  omega

theorem lit_cons (c : Char) (rest : List Char) : lit c (c :: rest) = some rest := by
  simp [lit]

theorem parse_format (t : Timestamp) (h : t.Valid) :
    parseTimestamp (formatTimestamp t) = some t := by
  obtain ⟨y, mo, d, hh, mi, se, us⟩ := t
  simp only [Timestamp.Valid] at h
  obtain ⟨h1, h2, h3, h4, h5, h6, h7, h8, h9, h10⟩ := h
  have hdm : daysInMonth y mo ≤ 31 := by
    simp only [daysInMonth]
    split <;> [split <;> omega; (split <;> omega)]
  simp only [parseTimestamp, formatTimestamp, formatChars]
  rw [parse4_pad4 y (by omega)]
  simp only [Option.bind_eq_bind, Option.some_bind]
  rw [lit_cons]
  simp only [Option.some_bind]
  rw [parse2or1_pad2 1 12 1 9 mo (by omega) (by omega) (by omega)]
  simp only [Option.some_bind]
  rw [lit_cons]
  simp only [Option.some_bind]
  rw [parse2or1_pad2 1 31 1 9 d (by omega) (by omega) (by omega)]
  simp only [Option.some_bind]
  rw [lit_cons]
  simp only [Option.some_bind]
  rw [parse2or1_pad2 0 23 0 9 hh (by omega) (by omega) (by omega)]
  simp only [Option.some_bind]
  rw [lit_cons]
  simp only [Option.some_bind]
  rw [parse2or1_pad2 0 59 0 9 mi (by omega) (by omega) (by omega)]
  simp only [Option.some_bind]
  rw [lit_cons]
  simp only [Option.some_bind]
  rw [parse2or1_pad2 0 61 0 9 se (by omega) (by omega) (by omega)]
  simp only [Option.some_bind]
  rw [lit_cons]
  simp only [Option.some_bind]
  rw [parseFrac_pad6 us (by omega)]
  simp only [Option.some_bind]
  rw [if_pos ⟨by omega, by simpa using h6, by omega⟩]

/-! ## Lemmas about suffix dispatch -/

theorem strEndsWith_drop {s suf : String} (h : strEndsWith s suf = true) :
    s.data.drop (s.data.length - suf.data.length) = suf.data := by
  simpa [strEndsWith] using h

theorem strEndsWith_le {s suf : String} (h : strEndsWith s suf = true) :
    suf.data.length ≤ s.data.length := by
  have hd := congrArg List.length (strEndsWith_drop h)
  simp only [List.length_drop] at hd
  omega

theorem ends_nested {s a b : String} (ha : strEndsWith s a = true) (hb : strEndsWith s b = true)
    (hab : a.data.length ≤ b.data.length) :
    a.data = b.data.drop (b.data.length - a.data.length) := by
  have da := strEndsWith_drop ha
  have db := strEndsWith_drop hb
  have la := strEndsWith_le ha
  have lb := strEndsWith_le hb
  have key : (s.data.drop (s.data.length - b.data.length)).drop
      (b.data.length - a.data.length) = a.data := by
    rw [List.drop_drop,
      show s.data.length - b.data.length + (b.data.length - a.data.length)
        = s.data.length - a.data.length from by omega, da]
  calc a.data = (s.data.drop (s.data.length - b.data.length)).drop
        (b.data.length - a.data.length) := key.symm
    _ = b.data.drop (b.data.length - a.data.length) := by rw [db]

theorem ends_excl {n a b : String} (ha : strEndsWith n a = true)
    (hlen : a.data.length ≤ b.data.length)
    (hne : a.data ≠ b.data.drop (b.data.length - a.data.length)) :
    strEndsWith n b = false := by
  cases hb : strEndsWith n b
  · rfl
  · exact absurd (ends_nested ha hb hlen) hne

theorem getMimeType_of_nii {n : String} (h : strEndsWith n ".nii" = true) :
    getMimeType n = some "application/NIfTI-1" := by
  have h1 : strEndsWith n ".nii.gz" = false := ends_excl h (by decide) (by decide)
  have h2 : strEndsWith n ".mgz" = false := ends_excl h (by decide) (by decide)
  have h3 : strEndsWith n ".mgh.gz" = false := ends_excl h (by decide) (by decide)
  simp [getMimeType, h, h1, h2, h3]

theorem getMimeType_of_mgh {n : String} (h : strEndsWith n ".mgh" = true) :
    getMimeType n = some "application/MGH" := by
  have h1 : strEndsWith n ".nii.gz" = false := ends_excl h (by decide) (by decide)
  have h2 : strEndsWith n ".mgz" = false := ends_excl h (by decide) (by decide)
  have h3 : strEndsWith n ".mgh.gz" = false := ends_excl h (by decide) (by decide)
  have h4 : strEndsWith n ".nii" = false := ends_excl h (by decide) (by decide)
  simp [getMimeType, h, h1, h2, h3, h4]

theorem getMimeType_of_gz {n : String}
    (h : (strEndsWith n ".nii.gz" || strEndsWith n ".mgz" || strEndsWith n ".mgh.gz") = true) :
    getMimeType n = some "application/x-gzip" := by
  simp only [getMimeType]
  rw [if_pos (by simpa using h)]

theorem getMimeType_of_other {n : String}
    (h1 : strEndsWith n ".nii.gz" = false) (h2 : strEndsWith n ".mgz" = false)
    (h3 : strEndsWith n ".mgh.gz" = false) (h4 : strEndsWith n ".nii" = false)
    (h5 : strEndsWith n ".mgh" = false) :
    getMimeType n = none := by
  simp [getMimeType, h1, h2, h3, h4, h5]

/-! ## Lemmas about the handle constructor and create_object -/

theorem init_of_lookup {identifier : String} {props : List (PropKey × PropVal)}
    {directory : String} {ts : Timestamp} {act : Bool} {f : String}
    (h : lookupProp PropKey.filename props = some (PropVal.str f)) :
    FunctionalDataHandle.init identifier props directory ts act =
      some { identifier := identifier, timestamp := ts, properties := props,
             directory := directory, is_active := act,
             data_directory := joinPath directory DATA_DIRECTORY,
             data_file := joinPath (joinPath directory DATA_DIRECTORY) f } := by
  simp [FunctionalDataHandle.init, h]

theorem init_inv {identifier : String} {props : List (PropKey × PropVal)}
    {directory : String} {ts : Timestamp} {act : Bool} {h : FunctionalDataHandle}
    (he : FunctionalDataHandle.init identifier props directory ts act = some h) :
    ∃ f, lookupProp PropKey.filename props = some (PropVal.str f) ∧
      h = { identifier := identifier, timestamp := ts, properties := props,
            directory := directory, is_active := act,
            data_directory := joinPath directory DATA_DIRECTORY,
            data_file := joinPath (joinPath directory DATA_DIRECTORY) f } := by
  unfold FunctionalDataHandle.init at he
  split at he
  · rename_i f hf
    exact ⟨f, hf, (Option.some_injective _ he).symm⟩
  · exact Option.noConfusion he

theorem lookup_filename_mkProps (n : String) (sz : Nat) (m : String) (ro : Bool) :
    lookupProp PropKey.filename (mkProps n sz m ro) = some (PropVal.str n) := by
  cases ro <;> rfl

theorem lookup_mimetype_mkProps (n : String) (sz : Nat) (m : String) (ro : Bool) :
    lookupProp PropKey.mimetype (mkProps n sz m ro) = some (PropVal.str m) := by
  cases ro <;> rfl

theorem lookup_readonly_mkProps (n : String) (sz : Nat) (m : String) :
    lookupProp PropKey.readonly (mkProps n sz m true) = some (PropVal.bool true) ∧
    lookupProp PropKey.readonly (mkProps n sz m false) = none := by
  exact ⟨rfl, rfl⟩

theorem create_object_ok_inv
    {baseDir : String} {fs : FileSystem} {store : List Document} {filename identifier : String}
    {now : Timestamp} {ro : Bool} {h : FunctionalDataHandle} {fs' : FileSystem}
    {store' : List Document}
    (hok : create_object baseDir fs store filename identifier now ro =
      Except.ok (h, fs', store')) :
    ∃ mime sz, getMimeType (basename (normpath filename)) = some mime ∧
      FunctionalDataHandle.init identifier
        (mkProps (basename (normpath filename)) sz mime ro)
        (joinPath baseDir identifier) now true = some h ∧
      (ensureObjectDir fs (joinPath baseDir identifier)).dirs.contains
        (joinPath baseDir identifier) = true ∧
      fs'.dirs = joinPath (joinPath baseDir identifier) DATA_DIRECTORY ::
        (ensureObjectDir fs (joinPath baseDir identifier)).dirs := by
  simp only [create_object] at hok
  split at hok
  · exact Except.noConfusion hok
  · rename_i mime hmime
    split at hok
    · exact Except.noConfusion hok
    · split at hok
      · rename_i hcon
        split at hok
        · exact Except.noConfusion hok
        · rename_i sz hsz
          split at hok
          · exact Except.noConfusion hok
          · rename_i obj hinit
            split at hok
            · exact Except.noConfusion hok
            · rw [Except.ok.injEq, Prod.mk.injEq, Prod.mk.injEq] at hok
              obtain ⟨hobj, hfs, -⟩ := hok
              subst hfs
              exact ⟨mime, sz, hmime, hobj ▸ hinit, hcon, rfl⟩
      · exact Except.noConfusion hok

theorem create_object_mime
    {baseDir : String} {fs : FileSystem} {store : List Document} {filename identifier : String}
    {now : Timestamp} {ro : Bool} {h : FunctionalDataHandle} {fs' : FileSystem}
    {store' : List Document} {m : String}
    (hok : create_object baseDir fs store filename identifier now ro =
      Except.ok (h, fs', store'))
    (hm : getMimeType (basename (normpath filename)) = some m) :
    lookupProp PropKey.mimetype h.properties = some (PropVal.str m) := by
  obtain ⟨mime, sz, hmime, hinit, -, -⟩ := create_object_ok_inv hok
  obtain ⟨f, hf, hh⟩ := init_inv hinit
  rw [hm] at hmime
  injection hmime with he
  subst he
  subst hh
  exact lookup_mimetype_mkProps _ _ _ _

theorem create_object_unsupported
    {baseDir : String} {fs : FileSystem} {store : List Document} {filename identifier : String}
    {now : Timestamp} {ro : Bool}
    (hm : getMimeType (basename (normpath filename)) = none) :
    create_object baseDir fs store filename identifier now ro =
      Except.error (CreateError.unsupportedFileType (basename (normpath filename)), fs, store) := by
  simp only [create_object, hm]

theorem from_dict_ok_inv {baseDir : String} {doc : Document} {h : FunctionalDataHandle}
    (hok : from_dict baseDir doc = Except.ok h) :
    ∃ idv act ts tsv props,
      doc.docId = some idv ∧ doc.docActive = some act ∧ doc.docTimestamp = some ts ∧
      parseTimestamp ts = some tsv ∧ doc.docProperties = some props ∧
      FunctionalDataHandle.init idv props (joinPath baseDir idv) tsv act = some h := by
  unfold from_dict at hok
  split at hok
  · exact Except.noConfusion hok
  · rename_i idv hid
    split at hok
    · exact Except.noConfusion hok
    · rename_i act hact
      split at hok
      · exact Except.noConfusion hok
      · rename_i ts hts
        split at hok
        · exact Except.noConfusion hok
        · rename_i tsv htsv
          split at hok
          · exact Except.noConfusion hok
          · rename_i props hprops
            split at hok
            · rename_i h2 hinit
              rw [Except.ok.injEq] at hok
              exact ⟨idv, act, ts, tsv, props, hid, hact, hts, htsv, hprops, hok ▸ hinit⟩
            · exact Except.noConfusion hok

/-! ## Lemmas about normpath and basename -/

theorem splitSep_ne_nil : ∀ cs : List Char, splitSep cs ≠ [] := by
  intro cs
  induction cs with
  | nil => simp [splitSep]
  | cons c cs ih =>
    simp only [splitSep]
    cases hs : splitSep cs with
    | nil => exact absurd hs ih
    | cons r rs =>
      intro hcontra
      by_cases hc : c = '/' <;> simp [hc] at hcontra

theorem splitSep_append_sep (xs ys : List Char) :
    splitSep (xs ++ '/' :: ys) = splitSep xs ++ splitSep ys := by
  induction xs with
  | nil =>
    simp only [List.nil_append, splitSep]
    cases hs : splitSep ys with
    | nil => exact absurd hs (splitSep_ne_nil ys)
    | cons r rs => simp
  | cons c xs ih =>
    cases hs : splitSep xs with
    | nil => exact absurd hs (splitSep_ne_nil xs)
    | cons r rs =>
      simp only [List.cons_append, splitSep, List.append_eq, ih, hs]
      split <;> simp

theorem splitSep_no_sep (cs : List Char) (h : '/' ∉ cs) : splitSep cs = [cs] := by
  induction cs with
  | nil => rfl
  | cons c cs ih =>
    simp only [List.mem_cons, not_or] at h
    simp only [splitSep, ih h.2]
    rw [if_neg (fun hc => h.1 hc.symm)]

theorem joinComps_append_single (l : List (List Char)) (sd : List Char) (h : l ≠ []) :
    joinComps (l ++ [sd]) = joinComps l ++ '/' :: sd := by
  induction l with
  | nil => exact absurd rfl h
  | cons a l ih =>
    cases l with
    | nil => rfl
    | cons b l' =>
      have hih := ih (by simp)
      calc joinComps ((a :: b :: l') ++ [sd])
          = a ++ '/' :: joinComps ((b :: l') ++ [sd]) := rfl
        _ = a ++ '/' :: (joinComps (b :: l') ++ '/' :: sd) := by rw [hih]
        _ = joinComps (a :: b :: l') ++ '/' :: sd := by
            simp [joinComps, List.append_assoc]

theorem takeWhile_all_append {p : Char → Bool} (as : List Char) (b : Char) (bs : List Char)
    (ha : ∀ a ∈ as, p a = true) (hb : p b = false) :
    (as ++ b :: bs).takeWhile p = as := by
  induction as with
  | nil => simp [List.takeWhile, hb]
  | cons a as ih =>
    simp only [List.cons_append, List.takeWhile, List.append_eq, ha a (by simp)]
    rw [ih (fun x hx => ha x (by simp [hx]))]

theorem takeWhile_all (p : Char → Bool) (as : List Char) (ha : ∀ a ∈ as, p a = true) :
    as.takeWhile p = as := by
  induction as with
  | nil => rfl
  | cons a as ih =>
    simp only [List.takeWhile, ha a (by simp)]
    rw [ih (fun x hx => ha x (by simp [hx]))]

theorem basenameChars_after_sep (xs sd : List Char) (h : '/' ∉ sd) :
    basenameChars (xs ++ '/' :: sd) = sd := by
  unfold basenameChars
  have hrev : (xs ++ '/' :: sd).reverse = sd.reverse ++ '/' :: xs.reverse := by
    simp
  rw [hrev, takeWhile_all_append sd.reverse '/' xs.reverse ?_ (by decide),
    List.reverse_reverse]
  intro a ha
  simp only [List.mem_reverse] at ha
  simp only [bne_iff_ne, ne_eq, decide_eq_true_eq]
  exact fun he => h (he ▸ ha)

theorem basenameChars_no_sep (sd : List Char) (h : '/' ∉ sd) :
    basenameChars sd = sd := by
  unfold basenameChars
  rw [takeWhile_all _ sd.reverse ?_, List.reverse_reverse]
  intro a ha
  simp only [List.mem_reverse] at ha
  simp only [bne_iff_ne, ne_eq, decide_eq_true_eq]
  exact fun he => h (he ▸ ha)

theorem normStep_nil (k : Nat) (acc : List (List Char)) : normStep k acc [] = acc := by
  simp [normStep]

theorem normStep_plain (k : Nat) (acc : List (List Char)) (comp : List Char)
    (h0 : comp ≠ []) (h1 : comp ≠ ['.']) (h2 : comp ≠ ['.', '.']) :
    normStep k acc comp = acc ++ [comp] := by
  unfold normStep
  rw [if_neg (by simp [h0, h1]), if_pos (Or.inl h2)]

theorem join_shape (k : Nat) (B : List (List Char)) (sd : List Char) :
    ∃ xs, List.replicate k '/' ++ joinComps (B ++ [sd]) = xs ++ sd ∧
      (xs = [] ∨ ∃ ys, xs = ys ++ ['/']) := by
  cases B with
  | nil =>
    cases k with
    | zero => exact ⟨[], by simp [joinComps], Or.inl rfl⟩
    | succ j =>
      refine ⟨List.replicate (j + 1) '/', by simp [joinComps], ?_⟩
      exact Or.inr ⟨List.replicate j '/', by rw [List.replicate_succ']⟩
  | cons b bl =>
    refine ⟨(List.replicate k '/' ++ joinComps (b :: bl)) ++ ['/'], ?_,
      Or.inr ⟨List.replicate k '/' ++ joinComps (b :: bl), rfl⟩⟩
    rw [joinComps_append_single _ _ (by simp)]
    simp

theorem basename_mk_shape (xs sd : List Char) (hs : '/' ∉ sd)
    (hsh : xs = [] ∨ ∃ ys, xs = ys ++ ['/']) :
    basename (String.mk (xs ++ sd)) = String.mk sd := by
  unfold basename
  cases hsh with
  | inl he =>
    rw [he]
    simp only [List.nil_append]
    rw [basenameChars_no_sep sd hs]
  | inr he =>
    obtain ⟨ys, hys⟩ := he
    rw [hys]
    rw [show (ys ++ ['/']) ++ sd = ys ++ '/' :: sd from by simp]
    rw [basenameChars_after_sep ys sd hs]

theorem normpath_trailing_sep (p s : String) (hs : '/' ∉ s.data) (h0 : s.data ≠ [])
    (h1 : s.data ≠ ['.']) (h2 : s.data ≠ ['.', '.']) :
    basename (normpath (p ++ "/" ++ s ++ "/")) = s := by
  obtain ⟨sd⟩ := s
  simp only at hs h0 h1 h2
  have hdata : (p ++ "/" ++ String.mk sd ++ "/").data = p.data ++ '/' :: (sd ++ '/' :: []) := by
    simp [String.data_append]
  simp only [normpath, hdata]
  rw [if_neg (by simp)]
  rw [splitSep_append_sep p.data (sd ++ '/' :: []), splitSep_append_sep sd [],
    splitSep_no_sep sd hs]
  rw [show splitSep [] = [[]] from rfl]
  rw [show ([sd] ++ [[]] : List (List Char)) = [sd, []] from rfl]
  rw [List.foldl_append]
  simp only [List.foldl_cons, List.foldl_nil]
  rw [normStep_nil, normStep_plain _ _ _ h0 h1 h2]
  obtain ⟨xs, hxs, hsh⟩ := join_shape (initialSlashCount (p.data ++ '/' :: (sd ++ '/' :: [])))
    (List.foldl (normStep (initialSlashCount (p.data ++ '/' :: (sd ++ '/' :: [])))) []
      (splitSep p.data)) sd
  rw [hxs]
  rw [if_neg (by simp [h0])]
  exact basename_mk_shape xs sd hs hsh

/-! ## Concrete fixtures used by the witnesses -/

/-- A fixed creation time. -/
def ts0 : Timestamp := ⟨2020, 1, 1, 0, 0, 0, 0⟩

theorem ts0_valid : Timestamp.Valid ts0 :=
  ⟨by decide, by decide, by decide, by decide, by decide, by decide, by decide, by decide,
   by decide, by decide⟩

/-- A filesystem holding one uploadable gzip scan. -/
def fsA : FileSystem := ⟨[], [("/tmp/a.nii.gz", 5)]⟩

/-- The handle produced by creating "/tmp/a.nii.gz" under "/b" as "idA". -/
def hA : FunctionalDataHandle :=
  ⟨"idA", ts0, mkProps "a.nii.gz" 5 "application/x-gzip" false, "/b/idA", true,
   "/b/idA/data", "/b/idA/data/a.nii.gz"⟩

/-- The filesystem after that creation. -/
def fsA3 : FileSystem :=
  ⟨["/b/idA/data", "/b/idA"], [("/b/idA/data/a.nii.gz", 5), ("/tmp/a.nii.gz", 5)]⟩

/-- A filesystem in which the object directory of "id1" already exists. -/
def fs6 : FileSystem := ⟨["/base/id1"], [("/tmp/x.nii", 5)]⟩

/-- A filesystem in which both the object directory and its data
subdirectory for "id2" already exist. -/
def fs6b : FileSystem := ⟨["/base/id2", "/base/id2/data"], [("/tmp/x.nii", 5)]⟩

/-! ## The claims -/

/-- C1: For every input path whose base name ends in .nii.gz, .mgz, or
.mgh.gz, create_object assigns the MIME type application/x-gzip; for a
base name ending in .nii it assigns application/NIfTI-1; for a base
name ending in .mgh it assigns application/MGH; for every other base
name it raises the unsupported-file-type error. -/
theorem claim_C1 (baseDir : String) (fs : FileSystem) (store : List Document)
    (filename identifier : String) (now : Timestamp) (ro : Bool)
    (h : FunctionalDataHandle) (fs' : FileSystem) (store' : List Document) :
    ((strEndsWith (basename (normpath filename)) ".nii.gz"
        || strEndsWith (basename (normpath filename)) ".mgz"
        || strEndsWith (basename (normpath filename)) ".mgh.gz") = true →
      create_object baseDir fs store filename identifier now ro = Except.ok (h, fs', store') →
      lookupProp PropKey.mimetype h.properties = some (PropVal.str "application/x-gzip"))
    ∧ (strEndsWith (basename (normpath filename)) ".nii" = true →
      create_object baseDir fs store filename identifier now ro = Except.ok (h, fs', store') →
      lookupProp PropKey.mimetype h.properties = some (PropVal.str "application/NIfTI-1"))
    ∧ (strEndsWith (basename (normpath filename)) ".mgh" = true →
      create_object baseDir fs store filename identifier now ro = Except.ok (h, fs', store') →
      lookupProp PropKey.mimetype h.properties = some (PropVal.str "application/MGH"))
    ∧ (strEndsWith (basename (normpath filename)) ".nii.gz" = false →
      strEndsWith (basename (normpath filename)) ".mgz" = false →
      strEndsWith (basename (normpath filename)) ".mgh.gz" = false →
      strEndsWith (basename (normpath filename)) ".nii" = false →
      strEndsWith (basename (normpath filename)) ".mgh" = false →
      create_object baseDir fs store filename identifier now ro =
        Except.error (CreateError.unsupportedFileType (basename (normpath filename)), fs, store)) := by
  refine ⟨?_, ?_, ?_, ?_⟩
  · intro hsuf hok
    exact create_object_mime hok (getMimeType_of_gz hsuf)
  · intro hsuf hok
    exact create_object_mime hok (getMimeType_of_nii hsuf)
  · intro hsuf hok
    exact create_object_mime hok (getMimeType_of_mgh hsuf)
  · intro h1 h2 h3 h4 h5
    exact create_object_unsupported (getMimeType_of_other h1 h2 h3 h4 h5)

theorem claim_C1_witness :
    lookupProp PropKey.mimetype hA.properties = some (PropVal.str "application/x-gzip") ∧
    create_object "/b" fsA [] "/tmp/foo.txt" "idT" ts0 false =
      Except.error (CreateError.unsupportedFileType "foo.txt", fsA, []) :=
  ⟨(claim_C1 "/b" fsA [] "/tmp/a.nii.gz" "idA" ts0 false hA fsA3 [to_dict hA]).1
      (by decide) (by rfl),
   (claim_C1 "/b" fsA [] "/tmp/foo.txt" "idT" ts0 false hA fsA3 []).2.2.2
      (by decide) (by decide) (by decide) (by decide) (by decide)⟩

/-- C2: For every input path whose base name has an unsupported suffix,
create_object raises the unsupported-file-type error and performs no
state change: the filesystem and the store are returned exactly as they
were before the call. -/
theorem claim_C2 (baseDir : String) (fs : FileSystem) (store : List Document)
    (filename identifier : String) (now : Timestamp) (ro : Bool)
    (h1 : strEndsWith (basename (normpath filename)) ".nii.gz" = false)
    (h2 : strEndsWith (basename (normpath filename)) ".mgz" = false)
    (h3 : strEndsWith (basename (normpath filename)) ".mgh.gz" = false)
    (h4 : strEndsWith (basename (normpath filename)) ".nii" = false)
    (h5 : strEndsWith (basename (normpath filename)) ".mgh" = false) :
    create_object baseDir fs store filename identifier now ro =
      Except.error (CreateError.unsupportedFileType (basename (normpath filename)), fs, store) :=
  create_object_unsupported (getMimeType_of_other h1 h2 h3 h4 h5)

theorem claim_C2_witness :
    create_object "/b" fsA [] "/data/upload/image.txt" "id9" ts0 false =
      Except.error (CreateError.unsupportedFileType "image.txt", fsA, []) :=
  claim_C2 "/b" fsA [] "/data/upload/image.txt" "id9" ts0 false
    (by decide) (by decide) (by decide) (by decide) (by decide)

/-- C8: The FunctionalDataHandle constructor fails whenever the
properties mapping does not contain the filename key, for every choice
of identifier, directory, timestamp, and active flag. -/
theorem claim_C8 (identifier : String) (props : List (PropKey × PropVal)) (directory : String)
    (ts : Timestamp) (act : Bool)
    (hnone : lookupProp PropKey.filename props = none) :
    FunctionalDataHandle.init identifier props directory ts act = none := by
  simp [FunctionalDataHandle.init, hnone]

theorem claim_C8_witness :
    FunctionalDataHandle.init "i1" [(PropKey.name, PropVal.str "x.nii")] "/d" ts0 true = none :=
  claim_C8 "i1" [(PropKey.name, PropVal.str "x.nii")] "/d" ts0 true (by decide)

/-- C9: For every FunctionalDataHandle h (constructed by the handle
constructor) and experiment identifier e, the experiment-associated
handle constructed from (h, e) keeps every field of h, including the
derived paths, and stores experiment_id e; e is not validated. -/
theorem claim_C9 (identifier : String) (props : List (PropKey × PropVal)) (directory : String)
    (ts : Timestamp) (act : Bool) (h : FunctionalDataHandle) (e : String)
    (hinit : FunctionalDataHandle.init identifier props directory ts act = some h) :
    FMRIDataHandle.init h e = some { base := h, experiment_id := e } := by
  obtain ⟨f, hf, hh⟩ := init_inv hinit
  subst hh
  simp only [FMRIDataHandle.init]
  rw [init_of_lookup hf]
  rfl

theorem claim_C9_witness :
    FMRIDataHandle.init hA "expE" = some { base := hA, experiment_id := "expE" } :=
  claim_C9 "idA" (mkProps "a.nii.gz" 5 "application/x-gzip" false) "/b/idA" ts0 true hA "expE"
    (by rfl)

/-- C3: Round-trip: for every handle returned by create_object (whose
injected creation time lies in the range of the clock), applying
from_dict to the document representation of the handle yields a handle
whose identifier, properties, timestamp, and active flag equal those of
the original, the directory being recomputed from the base storage path
and the identifier. -/
theorem claim_C3 (baseDir : String) (fs : FileSystem) (store : List Document)
    (filename identifier : String) (now : Timestamp) (ro : Bool)
    (h : FunctionalDataHandle) (fs' : FileSystem) (store' : List Document)
    (hv : now.Valid)
    (hok : create_object baseDir fs store filename identifier now ro =
      Except.ok (h, fs', store')) :
    ∃ h2, from_dict baseDir (to_dict h) = Except.ok h2 ∧
      h2.identifier = h.identifier ∧ h2.properties = h.properties ∧
      h2.timestamp = h.timestamp ∧ h2.is_active = h.is_active ∧
      h2.directory = joinPath baseDir h.identifier := by
  obtain ⟨mime, sz, hmime, hinit, -, -⟩ := create_object_ok_inv hok
  obtain ⟨f, hf, hh⟩ := init_inv hinit
  have hfd : from_dict baseDir (to_dict h) = Except.ok h := by
    rw [hh]
    simp only [from_dict, to_dict, parse_format now hv, init_of_lookup hf]
  exact ⟨h, hfd, rfl, rfl, rfl, rfl, by rw [hh]⟩

theorem claim_C3_witness :
    ∃ h2, from_dict "/b" (to_dict hA) = Except.ok h2 ∧
      h2.identifier = hA.identifier ∧ h2.properties = hA.properties ∧
      h2.timestamp = hA.timestamp ∧ h2.is_active = hA.is_active ∧
      h2.directory = joinPath "/b" hA.identifier :=
  claim_C3 "/b" fsA [] "/tmp/a.nii.gz" "idA" ts0 false hA fsA3 [to_dict hA] ts0_valid (by rfl)

/-- C4: For every handle built by the constructor with directory d and a
properties mapping containing the filename key, data_directory is d
joined with the data folder name and data_file is that joined with the
filename property; the same holds of every handle produced by
create_object and by from_dict. -/
theorem claim_C4 :
    (∀ (identifier : String) (props : List (PropKey × PropVal)) (directory : String)
        (ts : Timestamp) (act : Bool) (h : FunctionalDataHandle) (f : String),
      lookupProp PropKey.filename props = some (PropVal.str f) →
      FunctionalDataHandle.init identifier props directory ts act = some h →
      h.data_directory = joinPath directory DATA_DIRECTORY ∧
      h.data_file = joinPath (joinPath directory DATA_DIRECTORY) f)
    ∧ (∀ (baseDir : String) (fs : FileSystem) (store : List Document)
        (filename identifier : String) (now : Timestamp) (ro : Bool)
        (h : FunctionalDataHandle) (fs' : FileSystem) (store' : List Document),
      create_object baseDir fs store filename identifier now ro = Except.ok (h, fs', store') →
      h.data_directory = joinPath h.directory DATA_DIRECTORY ∧
      ∃ f, lookupProp PropKey.filename h.properties = some (PropVal.str f) ∧
        h.data_file = joinPath h.data_directory f)
    ∧ (∀ (baseDir : String) (doc : Document) (h : FunctionalDataHandle),
      from_dict baseDir doc = Except.ok h →
      h.data_directory = joinPath h.directory DATA_DIRECTORY ∧
      ∃ f, lookupProp PropKey.filename h.properties = some (PropVal.str f) ∧
        h.data_file = joinPath h.data_directory f) := by
  refine ⟨?_, ?_, ?_⟩
  · intro identifier props directory ts act h f hf hinit
    rw [init_of_lookup hf] at hinit
    injection hinit with he
    subst he
    exact ⟨rfl, rfl⟩
  · intro baseDir fs store filename identifier now ro h fs' store' hok
    obtain ⟨mime, sz, hmime, hinit, -, -⟩ := create_object_ok_inv hok
    obtain ⟨f, hf, hh⟩ := init_inv hinit
    subst hh
    exact ⟨rfl, f, hf, rfl⟩
  · intro baseDir doc h hok
    obtain ⟨idv, act, ts, tsv, props, -, -, -, -, -, hinit⟩ := from_dict_ok_inv hok
    obtain ⟨f, hf, hh⟩ := init_inv hinit
    subst hh
    exact ⟨rfl, f, hf, rfl⟩

/-- The document of the reconstruction scenario. -/
def doc5 : Document :=
  ⟨some "abc", some true, some "2020-01-01T00:00:00.000000",
   some [(PropKey.filename, PropVal.str "x.nii")]⟩

/-- The handle reconstructed from doc5 under base directory "/b". -/
def h5 : FunctionalDataHandle :=
  ⟨"abc", ts0, [(PropKey.filename, PropVal.str "x.nii")], "/b/abc", true,
   "/b/abc/data", "/b/abc/data/x.nii"⟩

theorem claim_C4_witness :
    (hA.data_directory = joinPath "/b/idA" DATA_DIRECTORY ∧
      hA.data_file = joinPath (joinPath "/b/idA" DATA_DIRECTORY) "a.nii.gz")
    ∧ (hA.data_directory = joinPath hA.directory DATA_DIRECTORY ∧
      ∃ f, lookupProp PropKey.filename hA.properties = some (PropVal.str f) ∧
        hA.data_file = joinPath hA.data_directory f)
    ∧ (h5.data_directory = joinPath h5.directory DATA_DIRECTORY ∧
      ∃ f, lookupProp PropKey.filename h5.properties = some (PropVal.str f) ∧
        h5.data_file = joinPath h5.data_directory f) :=
  ⟨claim_C4.1 "idA" (mkProps "a.nii.gz" 5 "application/x-gzip" false) "/b/idA" ts0 true hA
      "a.nii.gz" (by rfl) (by rfl),
   claim_C4.2.1 "/b" fsA [] "/tmp/a.nii.gz" "idA" ts0 false hA fsA3 [to_dict hA] (by rfl),
   claim_C4.2.2 "/b" doc5 h5 (by rfl)⟩

/-- C5: from_dict takes the identifier from the _id field, the active
flag and the properties verbatim, parses the timestamp from the fixed
format, and derives the directory from the base storage path and the
identifier; it fails when a required field is absent or the timestamp
string does not match the format. Matching is the one strptime
performs: literals are matched case-insensitively (a lowercase t is
accepted), and the failure conjunct is stated for ASCII timestamp
strings, the domain on which the digit matching of the embedding
coincides with the character class of the real regex. -/
theorem claim_C5 :
    (∀ (baseDir idv : String) (act : Bool) (ts : String) (tsv : Timestamp)
        (props : List (PropKey × PropVal)) (h : FunctionalDataHandle),
      parseTimestamp ts = some tsv →
      from_dict baseDir ⟨some idv, some act, some ts, some props⟩ = Except.ok h →
      h.identifier = idv ∧ h.is_active = act ∧ h.timestamp = tsv ∧ h.properties = props ∧
      h.directory = joinPath baseDir idv)
    ∧ (∀ (baseDir : String) (doc : Document),
      (doc.docId = none ∨ doc.docActive = none ∨ doc.docTimestamp = none ∨
        doc.docProperties = none) →
      exceptIsOk (from_dict baseDir doc) = false)
    ∧ (∀ (baseDir idv : String) (act : Bool) (ts : String)
        (props : List (PropKey × PropVal)),
      (∀ c ∈ ts.data, c.toNat < 128) →
      parseTimestamp ts = none →
      from_dict baseDir ⟨some idv, some act, some ts, some props⟩ =
        Except.error FromDictError.badTimestamp) := by
  refine ⟨?_, ?_, ?_⟩
  · intro baseDir idv act ts tsv props h hp hok
    obtain ⟨idv2, act2, ts2, tsv2, props2, hid, hact, hts, hprops2, hpv, hinit⟩ :=
      from_dict_ok_inv hok
    have hid' : some idv = some idv2 := hid
    have hact' : some act = some act2 := hact
    have hts' : some ts = some ts2 := hts
    have hpv' : some props = some props2 := hpv
    injection hid' with e1
    injection hact' with e2
    injection hts' with e3
    injection hpv' with e4
    subst e1
    subst e2
    subst e3
    subst e4
    rw [hp] at hprops2
    injection hprops2 with e5
    subst e5
    obtain ⟨f, hf, hh⟩ := init_inv hinit
    subst hh
    exact ⟨rfl, rfl, rfl, rfl, rfl⟩
  · intro baseDir doc hmiss
    obtain ⟨di, da, dt, dp⟩ := doc
    cases di with
    | none => rfl
    | some iv =>
      cases da with
      | none => rfl
      | some av =>
        cases dt with
        | none => rfl
        | some tv =>
          cases dp with
          | some pv => simp at hmiss
          | none => cases hpt : parseTimestamp tv <;> simp [from_dict, hpt, exceptIsOk]
  · intro baseDir idv act ts props hascii hp
    simp [from_dict, hp]

/-- The handle reconstructed from a document whose timestamp string
uses a lowercase t separator, accepted by the case-insensitive literal
matching of strptime. -/
def h5t : FunctionalDataHandle :=
  ⟨"abt", ts0, [(PropKey.filename, PropVal.str "x.nii")], "/b/abt", true,
   "/b/abt/data", "/b/abt/data/x.nii"⟩

theorem claim_C5_witness :
    (h5.identifier = "abc" ∧ h5.is_active = true ∧ h5.timestamp = ts0 ∧
      h5.properties = [(PropKey.filename, PropVal.str "x.nii")] ∧
      h5.directory = joinPath "/b" "abc")
    ∧ (h5t.identifier = "abt" ∧ h5t.is_active = true ∧ h5t.timestamp = ts0 ∧
      h5t.properties = [(PropKey.filename, PropVal.str "x.nii")] ∧
      h5t.directory = joinPath "/b" "abt")
    ∧ exceptIsOk (from_dict "/b" ⟨none, some true, some "x", some []⟩) = false
    ∧ from_dict "/b" ⟨some "abc", some true, some "garbage", some []⟩ =
        Except.error FromDictError.badTimestamp :=
  ⟨claim_C5.1 "/b" "abc" true "2020-01-01T00:00:00.000000" ts0
      [(PropKey.filename, PropVal.str "x.nii")] h5 (by rfl) (by rfl),
   claim_C5.1 "/b" "abt" true "2020-01-01t00:00:00.000000" ts0
      [(PropKey.filename, PropVal.str "x.nii")] h5t (by rfl) (by rfl),
   claim_C5.2.1 "/b" ⟨none, some true, some "x", some []⟩ (Or.inl rfl),
   claim_C5.2.2 "/b" "abc" true "garbage" [] (by decide) (by rfl)⟩

/-- C6 counterexample: a state in which the object directory of the
generated identifier already exists, yet create_object succeeds instead
of failing, refuting the claim that the operation fails when that
directory already exists. -/
theorem claim_C6_counterexample :
    fs6.pathExists (joinPath "/base" "id1") = true ∧
    exceptIsOk (create_object "/base" fs6 [] "/tmp/x.nii" "id1" ts0 false) = true :=
  ⟨by decide, by decide⟩

/-- C6 (amended): the object directory is created when its path does not
exist and a pre-existing object directory is silently reused; the
directory-creation step fails (with the file-exists error) precisely
when the data subdirectory already exists. -/
theorem claim_C6 (baseDir : String) (fs : FileSystem) (store : List Document)
    (filename identifier : String) (now : Timestamp) (ro : Bool) :
    (∀ h fs' store', create_object baseDir fs store filename identifier now ro =
        Except.ok (h, fs', store') →
      (joinPath baseDir identifier) ∈ fs'.dirs)
    ∧ (∀ m, getMimeType (basename (normpath filename)) = some m →
      (ensureObjectDir fs (joinPath baseDir identifier)).pathExists
          (joinPath (joinPath baseDir identifier) DATA_DIRECTORY) = true →
      create_object baseDir fs store filename identifier now ro =
        Except.error (CreateError.fileExists
            (joinPath (joinPath baseDir identifier) DATA_DIRECTORY),
          ensureObjectDir fs (joinPath baseDir identifier), store))
    ∧ (∀ m sz, fs.dirs.contains (joinPath baseDir identifier) = true →
      (ensureObjectDir fs (joinPath baseDir identifier)).pathExists
          (joinPath (joinPath baseDir identifier) DATA_DIRECTORY) = false →
      getMimeType (basename (normpath filename)) = some m →
      getFileSize fs filename = some sz →
      (¬∃ d ∈ store, d.docId = some identifier) →
      exceptIsOk (create_object baseDir fs store filename identifier now ro) = true) := by
  refine ⟨?_, ?_, ?_⟩
  · intro h fs' store' hok
    obtain ⟨mime, sz, hmime, hinit, hcon, hdirs⟩ := create_object_ok_inv hok
    rw [hdirs]
    refine List.mem_cons_of_mem _ ?_
    simpa using hcon
  · intro m hm hdd
    simp only [create_object, hm, hdd]
    rw [if_pos trivial]
  · intro m sz hdir hdd hm hsz hins
    have hpe : fs.pathExists (joinPath baseDir identifier) = true := by
      simp only [FileSystem.pathExists, Bool.or_eq_true]
      exact Or.inl hdir
    have hens : ensureObjectDir fs (joinPath baseDir identifier) = fs := by
      simp [ensureObjectDir, hpe]
    rw [hens] at hdd
    simp only [getFileSize] at hsz
    simp only [create_object, hm, hens, hdd, hdir, getFileSize, hsz,
      init_of_lookup (lookup_filename_mkProps (basename (normpath filename)) sz m ro),
      insert_object, eq_false hins, exceptIsOk]
    simp

/-- The handle produced by the reuse run of the counterexample. -/
def h6 : FunctionalDataHandle :=
  ⟨"id1", ts0, mkProps "x.nii" 5 "application/NIfTI-1" false, "/base/id1", true,
   "/base/id1/data", "/base/id1/data/x.nii"⟩

/-- The filesystem after that run. -/
def fs6c : FileSystem :=
  ⟨["/base/id1/data", "/base/id1"], [("/base/id1/data/x.nii", 5), ("/tmp/x.nii", 5)]⟩

theorem claim_C6_witness :
    (joinPath "/base" "id1") ∈ fs6c.dirs ∧
    create_object "/base" fs6b [] "/tmp/x.nii" "id2" ts0 false =
      Except.error (CreateError.fileExists "/base/id2/data", fs6b, []) ∧
    exceptIsOk (create_object "/base" fs6 [] "/tmp/x.nii" "id1" ts0 false) = true :=
  ⟨(claim_C6 "/base" fs6 [] "/tmp/x.nii" "id1" ts0 false).1 h6 fs6c [to_dict h6] (by rfl),
   (claim_C6 "/base" fs6b [] "/tmp/x.nii" "id2" ts0 false).2.1 "application/NIfTI-1"
      (by rfl) (by rfl),
   (claim_C6 "/base" fs6 [] "/tmp/x.nii" "id1" ts0 false).2.2 "application/NIfTI-1" 5
      (by rfl) (by rfl) (by rfl) (by rfl) (by simp)⟩

/-- C7: for every accepted input, create_object with the read-only flag
requested yields a handle whose properties set the read-only flag to
true, and with the default it omits the flag. -/
theorem claim_C7 (baseDir : String) (fs : FileSystem) (store : List Document)
    (filename identifier : String) (now : Timestamp)
    (h h2 : FunctionalDataHandle) (fs' fs2' : FileSystem) (store' store2' : List Document) :
    (create_object baseDir fs store filename identifier now true = Except.ok (h, fs', store') →
      lookupProp PropKey.readonly h.properties = some (PropVal.bool true))
    ∧ (create_object baseDir fs store filename identifier now false =
        Except.ok (h2, fs2', store2') →
      lookupProp PropKey.readonly h2.properties = none) := by
  constructor
  · intro hok
    obtain ⟨mime, sz, hmime, hinit, -, -⟩ := create_object_ok_inv hok
    obtain ⟨f, hf, hh⟩ := init_inv hinit
    subst hh
    exact (lookup_readonly_mkProps _ _ _).1
  · intro hok
    obtain ⟨mime, sz, hmime, hinit, -, -⟩ := create_object_ok_inv hok
    obtain ⟨f, hf, hh⟩ := init_inv hinit
    subst hh
    exact (lookup_readonly_mkProps _ _ _).2

/-- The handle of the read-only creation run. -/
def hAR : FunctionalDataHandle :=
  ⟨"idA", ts0, mkProps "a.nii.gz" 5 "application/x-gzip" true, "/b/idA", true,
   "/b/idA/data", "/b/idA/data/a.nii.gz"⟩

theorem claim_C7_witness :
    lookupProp PropKey.readonly hAR.properties = some (PropVal.bool true) ∧
    lookupProp PropKey.readonly hA.properties = none :=
  ⟨(claim_C7 "/b" fsA [] "/tmp/a.nii.gz" "idA" ts0 hAR hA fsA3 fsA3
      [to_dict hAR] [to_dict hA]).1 (by rfl),
   (claim_C7 "/b" fsA [] "/tmp/a.nii.gz" "idA" ts0 hAR hA fsA3 fsA3
      [to_dict hAR] [to_dict hA]).2 (by rfl)⟩

/-- C10: create_object normalises the input path before taking its base
name, so a path with a trailing separator yields its last non-empty
component, and suffix validation is applied to that normalised base
name; in particular the input "/a/scan.nii/" is validated as NIfTI and
gives filename property "scan.nii" while the plain base name of the raw
path would be empty and unsupported. -/
theorem claim_C10 :
    (∀ p s : String, '/' ∉ s.data → s.data ≠ [] → s.data ≠ ['.'] → s.data ≠ ['.', '.'] →
      basename (normpath (p ++ "/" ++ s ++ "/")) = s)
    ∧ basename (normpath "/a/scan.nii/") = "scan.nii"
    ∧ basename "/a/scan.nii/" = ""
    ∧ getMimeType (basename (normpath "/a/scan.nii/")) = some "application/NIfTI-1"
    ∧ getMimeType (basename "/a/scan.nii/") = none
    ∧ (∀ (fs : FileSystem) (store : List Document) (identifier : String) (now : Timestamp)
        (ro : Bool) (h : FunctionalDataHandle) (fs' : FileSystem) (store' : List Document),
      create_object "/b" fs store "/a/scan.nii/" identifier now ro = Except.ok (h, fs', store') →
      lookupProp PropKey.filename h.properties = some (PropVal.str "scan.nii")) := by
  refine ⟨normpath_trailing_sep, by rfl, by rfl, by rfl, by rfl, ?_⟩
  intro fs store identifier now ro h fs' store' hok
  obtain ⟨mime, sz, hmime, hinit, -, -⟩ := create_object_ok_inv hok
  obtain ⟨f, hf, hh⟩ := init_inv hinit
  subst hh
  exact lookup_filename_mkProps _ _ _ _

/-- The filesystem of the trailing-separator creation run: the source
path is an opaque key of the file map. -/
def fs10 : FileSystem := ⟨[], [("/a/scan.nii/", 7)]⟩

/-- The handle produced by that run. -/
def h10 : FunctionalDataHandle :=
  ⟨"idN", ts0, mkProps "scan.nii" 7 "application/NIfTI-1" false, "/b/idN", true,
   "/b/idN/data", "/b/idN/data/scan.nii"⟩

/-- The filesystem after that run. -/
def fs10b : FileSystem :=
  ⟨["/b/idN/data", "/b/idN"], [("/b/idN/data/scan.nii", 7), ("/a/scan.nii/", 7)]⟩

theorem claim_C10_witness :
    basename (normpath ("/a" ++ "/" ++ "scan.nii" ++ "/")) = "scan.nii" ∧
    lookupProp PropKey.filename h10.properties = some (PropVal.str "scan.nii") :=
  ⟨claim_C10.1 "/a" "scan.nii" (by decide) (by decide) (by decide) (by decide),
   claim_C10.2.2.2.2.2 fs10 [] "idN" ts0 false h10 fs10b [to_dict h10] (by rfl)⟩

end FuncData
